import Mathlib

/-!
Verification development for the food-calorie-estimator program
(`streamlit_food_calorie_estimator.py`).

The program has two pieces of core logic:

* `image_to_base64` — re-encodes a PIL image as JPEG into an in-memory
  buffer and base64-encodes the bytes;
* `call_gemini_api` — a retry loop around an HTTP POST to an inference
  endpoint: non-403 HTTP 4xx/5xx errors are retried with exponential
  backoff, HTTP 403 and transport/parse/missing-field failures are fatal,
  and on a 2xx response the text payload of
  `result["candidates"][0]["content"]["parts"][0]["text"]` is parsed as
  JSON and returned;

plus a small UI layer that renders a table and a calorie total
(`sum(item.get("calories", 0) for item in results)`) when the returned
value is truthy.

The embedding below models JSON values, the relevant Python runtime
semantics (dict/list/str subscription errors, the exception classes the
`except` clauses catch, truthiness), and the control flow of the retry
loop, faithfully to the source.
-/

/-- Model of a parsed JSON value as produced by `json.loads` (Python
dict/list/str/int/bool/None).  Numbers are modelled as integers: the
JSON fragment this program exercises (calorie counts) is integral. -/
inductive Json where
  | null : Json
  | bool (b : Bool) : Json
  | num (n : Int) : Json
  | str (s : String) : Json
  | arr (xs : List Json) : Json
  | obj (fields : List (String × Json)) : Json

/-- Python exception classes that the code can raise.  `requestException`
models `requests.exceptions.RequestException` (transport failure);
`jsonDecodeError` models `json.JSONDecodeError`; the rest are the builtin
`KeyError`, `IndexError`, `TypeError`, `AttributeError`. -/
inductive PyErr where
  | requestException : PyErr
  | jsonDecodeError : PyErr
  | keyError : PyErr
  | indexError : PyErr
  | typeError : PyErr
  | attributeError : PyErr
deriving DecidableEq

/-- Exception classes caught by
`except (requests.exceptions.RequestException, json.JSONDecodeError, KeyError)`
in `call_gemini_api` (line 75): these failures are fatal but handled;
anything else propagates out of the function. -/
def caughtFatal : PyErr → Bool
  | PyErr.requestException => true
  | PyErr.jsonDecodeError => true
  | PyErr.keyError => true
  | _ => false

/- ---------------------------------------------------------------------
Model of `json.loads`: a recursive-descent parser for the JSON fragment
this program exchanges (strings with simple escapes, integers, arrays,
objects, `true`/`false`/`null`).  Inputs outside the fragment (floats,
unicode escapes) are rejected, which the embedding treats as a decode
failure; the payloads of this program are all within the fragment.
--------------------------------------------------------------------- -/

/-- Skip JSON whitespace. -/
def skipWs : List Char → List Char
  | [] => []
  | c :: cs =>
    if c = ' ' ∨ c = '\n' ∨ c = '\t' ∨ c = '\r' then skipWs cs else c :: cs

/-- Decode one character escape after a backslash in a JSON string. -/
def escChar (c : Char) : Option Char :=
  if c.toNat = 34 then some c
  else if c.toNat = 92 then some c
  else if c = '/' then some '/'
  else if c = 'n' then some (Char.ofNat 10)
  else if c = 't' then some (Char.ofNat 9)
  else if c = 'r' then some (Char.ofNat 13)
  else if c = 'b' then some (Char.ofNat 8)
  else if c = 'f' then some (Char.ofNat 12)
  else none

/-- Parse the body of a JSON string after the opening quote, returning
the string and the remaining input. -/
def parseStrBody : List Char → Option (String × List Char)
  | [] => none
  | c :: cs =>
    if c.toNat = 34 then some ("", cs)
    else if c.toNat = 92 then
      match cs with
      | [] => none
      | d :: ds =>
        match escChar d with
        | none => none
        | some e =>
          match parseStrBody ds with
          | none => none
          | some (s, r) => some (String.singleton e ++ s, r)
    else
      match parseStrBody cs with
      | none => none
      | some (s, r) => some (String.singleton c ++ s, r)

/-- Consume leading decimal digits, accumulating their value. -/
def readDigits : List Char → Nat → Nat × List Char
  | [], acc => (acc, [])
  | c :: cs, acc =>
    if c.isDigit then readDigits cs (acc * 10 + (c.toNat - 48)) else (acc, c :: cs)

/-- Parse an integer literal whose first character is `c` (a digit or a
minus sign). -/
def parseNumFrom (c : Char) (rest : List Char) : Option (Json × List Char) :=
  if c.toNat = 45 then
    match rest with
    | [] => none
    | d :: ds =>
      if d.isDigit then
        let p := readDigits ds (d.toNat - 48)
        some (Json.num (-(Int.ofNat p.1)), p.2)
      else none
  else if c.isDigit then
    let p := readDigits rest (c.toNat - 48)
    some (Json.num (Int.ofNat p.1), p.2)
  else none

/-- Match a literal spelled-out keyword tail (for `true`, `false`,
`null`), returning the remaining input. -/
def litMatches : List Char → List Char → Option (List Char)
  | [], cs => some cs
  | _ :: _, [] => none
  | l :: ls, c :: cs => if c = l then litMatches ls cs else none

mutual

/-- Parse one JSON value; fuel bounds the recursion depth (each recursive
call consumes at least one input character first). -/
def parseVal : Nat → List Char → Option (Json × List Char)
  | 0, _ => none
  | f + 1, cs =>
    match skipWs cs with
    | [] => none
    | c :: rest =>
      if c.toNat = 34 then
        match parseStrBody rest with
        | none => none
        | some (s, r) => some (Json.str s, r)
      else if c.toNat = 123 then
        match skipWs rest with
        | [] => none
        | d :: rest2 =>
          if d.toNat = 125 then some (Json.obj [], rest2)
          else parseObjItems f (d :: rest2) []
      else if c.toNat = 91 then
        match skipWs rest with
        | [] => none
        | d :: rest2 =>
          if d.toNat = 93 then some (Json.arr [], rest2)
          else parseArrItems f (d :: rest2) []
      else if c.toNat = 45 ∨ c.isDigit then parseNumFrom c rest
      else if c = 't' then
        match litMatches ['r', 'u', 'e'] rest with
        | none => none
        | some r => some (Json.bool true, r)
      else if c = 'f' then
        match litMatches ['a', 'l', 's', 'e'] rest with
        | none => none
        | some r => some (Json.bool false, r)
      else if c = 'n' then
        match litMatches ['u', 'l', 'l'] rest with
        | none => none
        | some r => some (Json.null, r)
      else none

/-- Parse the comma-separated items of a JSON array after the opening
bracket (first item not yet consumed). -/
def parseArrItems : Nat → List Char → List Json → Option (Json × List Char)
  | 0, _, _ => none
  | f + 1, cs, acc =>
    match parseVal f cs with
    | none => none
    | some (v, rest) =>
      match skipWs rest with
      | [] => none
      | c :: rest2 =>
        if c = ',' then parseArrItems f rest2 (acc ++ [v])
        else if c.toNat = 93 then some (Json.arr (acc ++ [v]), rest2)
        else none

/-- Parse the comma-separated members of a JSON object after the opening
brace (first key not yet consumed). -/
def parseObjItems : Nat → List Char → List (String × Json) → Option (Json × List Char)
  | 0, _, _ => none
  | f + 1, cs, acc =>
    match skipWs cs with
    | [] => none
    | c :: rest =>
      if c.toNat = 34 then
        match parseStrBody rest with
        | none => none
        | some (k, rest2) =>
          match skipWs rest2 with
          | [] => none
          | d :: rest3 =>
            if d = ':' then
              match parseVal f rest3 with
              | none => none
              | some (v, rest4) =>
                match skipWs rest4 with
                | [] => none
                | e :: rest5 =>
                  if e = ',' then parseObjItems f rest5 (acc ++ [(k, v)])
                  else if e.toNat = 125 then some (Json.obj (acc ++ [(k, v)]), rest5)
                  else none
            else none
      else none

end

/-- Model of `json.loads` on a string: parse one JSON value and require
only whitespace to remain.  Returns `none` where Python raises
`json.JSONDecodeError`. -/
def Json.parse (s : String) : Option Json :=
  match parseVal (s.length + 2) s.data with
  | none => none
  | some (v, rest) =>
    match skipWs rest with
    | [] => some v
    | _ :: _ => none

example : Json.parse "[]" = some (Json.arr []) := by rfl
example : Json.parse " \x7b\"a\": [1, -2, true, null]\x7d " =
    some (Json.obj [("a", Json.arr [Json.num 1, Json.num (-2), Json.bool true, Json.null])]) := by rfl
example : Json.parse "[\x7b\"food_item\": \"Apple\", \"calories\": 95\x7d]" =
    some (Json.arr [Json.obj [("food_item", Json.str "Apple"), ("calories", Json.num 95)]]) := by rfl
example : Json.parse "not json" = none := by rfl

/- ---------------------------------------------------------------------
Python subscription and attribute semantics used on the parsed envelope
(line 66 of the source):
`result["candidates"][0]["content"]["parts"][0]["text"]`.
--------------------------------------------------------------------- -/

/-- Lookup of a string key in a JSON object, with Python dict semantics:
`json.loads` builds a dict in which a duplicated key keeps its last
occurrence. -/
def lookupField (k : String) : List (String × Json) → Option Json
  | [] => none
  | (k2, v) :: rest =>
    match lookupField k rest with
    | some v2 => some v2
    | none => if k2 = k then some v else none

/-- Python `x[k]` for a string key `k`: dict lookup (`KeyError` when the
key is absent); a list, a string or any other value subscripted with a
string raises `TypeError`. -/
def jsonIndexStr (j : Json) (k : String) : Except PyErr Json :=
  match j with
  | Json.obj fs =>
    match lookupField k fs with
    | some v => Except.ok v
    | none => Except.error PyErr.keyError
  | _ => Except.error PyErr.typeError

/-- Python `x[i]` for an integer index `i`: list indexing (`IndexError`
out of range), string indexing (yielding a one-character string,
`IndexError` out of range), dict lookup of the integer key (`KeyError`:
keys built by `json.loads` are strings), `TypeError` otherwise. -/
def jsonIndexNat (j : Json) (i : Nat) : Except PyErr Json :=
  match j with
  | Json.arr xs =>
    match xs.get? i with
    | some v => Except.ok v
    | none => Except.error PyErr.indexError
  | Json.str s =>
    match s.data.get? i with
    | some c => Except.ok (Json.str (String.singleton c))
    | none => Except.error PyErr.indexError
  | Json.obj _ => Except.error PyErr.keyError
  | _ => Except.error PyErr.typeError

/-- Model of line 66: extract
`result["candidates"][0]["content"]["parts"][0]["text"]` from the parsed
response envelope, propagating the Python exception of the first failing
subscription. -/
def extractText (j : Json) : Except PyErr Json :=
  match jsonIndexStr j "candidates" with
  | Except.error e => Except.error e
  | Except.ok a =>
    match jsonIndexNat a 0 with
    | Except.error e => Except.error e
    | Except.ok b =>
      match jsonIndexStr b "content" with
      | Except.error e => Except.error e
      | Except.ok c =>
        match jsonIndexStr c "parts" with
        | Except.error e => Except.error e
        | Except.ok d =>
          match jsonIndexNat d 0 with
          | Except.error e => Except.error e
          | Except.ok p => jsonIndexStr p "text"

/-- Model of `json.loads(json_string)` on line 67: requires a string
argument (`TypeError` otherwise), then parses it (`JSONDecodeError` on
failure). -/
def loads (t : Json) : Except PyErr Json :=
  match t with
  | Json.str s =>
    match Json.parse s with
    | some v => Except.ok v
    | none => Except.error PyErr.jsonDecodeError
  | _ => Except.error PyErr.typeError

/- ---------------------------------------------------------------------
The retry loop of `call_gemini_api` (lines 60-80).
--------------------------------------------------------------------- -/

/-- What one `requests.post` attempt yields, as observed by the client:
either a transport failure (`requests.post` raises a
`RequestException`), or an HTTP response with a status code and a raw
body string. -/
inductive AttemptOutcome where
  | transportError : AttemptOutcome
  | response (status : Nat) (body : String) : AttemptOutcome

/-- A message emitted through `st.error` / `st.warning`. -/
inductive Msg where
  | errMsg (s : String) : Msg
  | warnMsg (s : String) : Msg
deriving DecidableEq

/-- Text of `st.error` on line 70. -/
def forbiddenMsg : String :=
  "Error: 403 Forbidden. There may be an issue with API key permissions."

/-- Text of `st.error` on line 79. -/
def maxRetriesMsg : String :=
  "Maximum retries exceeded. Could not get a response from the API."

/-- Rendering of the caught exception in the message of line 76; the
embedding renders the exception class name. -/
def pyErrText : PyErr → String
  | PyErr.requestException => "RequestException"
  | PyErr.jsonDecodeError => "JSONDecodeError"
  | PyErr.keyError => "KeyError"
  | PyErr.indexError => "IndexError"
  | PyErr.typeError => "TypeError"
  | PyErr.attributeError => "AttributeError"

/-- Text of `st.error` on line 76. -/
def apiErrorMsg (e : PyErr) : String :=
  "Error calling Gemini API: " ++ pyErrText e

/-- Text of `st.warning` on line 72 (attempt is the 1-based attempt
number `i+1`). -/
def retryWarning (delay attempt retries : Nat) : String :=
  "API call failed, retrying in " ++ toString delay ++
    " seconds... (Attempt " ++ toString attempt ++ "/" ++ toString retries ++ ")"

/-- Everything observable about one run of `call_gemini_api`:
the returned value (`Except.error e` models an exception `e` escaping
the function uncaught; `Except.ok none` models `return None`;
`Except.ok (some v)` models returning the parsed payload `v`), the
messages emitted in order, the `time.sleep` durations in order, and the
number of HTTP attempts performed. -/
structure CallTrace where
  retval : Except PyErr (Option Json)
  msgs : List Msg
  sleeps : List Nat
  attempts : Nat

/-- The body of the `try` block after `raise_for_status` has passed
(lines 65-67): parse the body (`response.json()`), extract the text
payload, and parse the payload. -/
def attemptBody (body : String) : Except PyErr Json :=
  match Json.parse body with
  | none => Except.error PyErr.jsonDecodeError
  | some envl =>
    match extractText envl with
    | Except.error e => Except.error e
    | Except.ok t => loads t

/-- Model of `requests.Response.raise_for_status`: raises `HTTPError`
exactly for client-error and server-error status codes (4xx and 5xx). -/
def raisesForStatus (status : Nat) : Prop :=
  400 ≤ status ∧ status < 600

instance (status : Nat) : Decidable (raisesForStatus status) := by
  unfold raisesForStatus; infer_instance

/-- The loop of lines 60-74, from loop index `i` with `fuel` iterations
remaining (`fuel = retries - i` at every call) and current backoff
`delay`.  `env` gives the outcome of the attempt at each loop index.
The trace records only the behaviour from this point on. -/
def runFrom (env : Nat → AttemptOutcome) (retries : Nat) :
    Nat → Nat → Nat → CallTrace
  | 0, _, _ => ⟨Except.ok none, [Msg.errMsg maxRetriesMsg], [], 0⟩
  | fuel + 1, i, delay =>
    match env i with
    | AttemptOutcome.transportError =>
      ⟨Except.ok none, [Msg.errMsg (apiErrorMsg PyErr.requestException)], [], 1⟩
    | AttemptOutcome.response status body =>
      if raisesForStatus status then
        if status = 403 then
          ⟨Except.ok none, [Msg.errMsg forbiddenMsg], [], 1⟩
        else
          let rest := runFrom env retries fuel (i + 1) (delay * 2)
          ⟨rest.retval,
           Msg.warnMsg (retryWarning delay (i + 1) retries) :: rest.msgs,
           delay :: rest.sleeps,
           rest.attempts + 1⟩
      else
        match attemptBody body with
        | Except.ok v => ⟨Except.ok (some v), [], [], 1⟩
        | Except.error e =>
          if caughtFatal e then
            ⟨Except.ok none, [Msg.errMsg (apiErrorMsg e)], [], 1⟩
          else
            ⟨Except.error e, [], [], 1⟩

/-- Model of `call_gemini_api(prompt, base64_image_data, retries=5)`:
run the loop from index 0 with initial delay 1.  The prompt and image
data only shape the outbound request, which the environment `env`
abstracts; they do not influence the control flow modelled here. -/
def call_gemini_api (env : Nat → AttemptOutcome) (retries : Nat := 5) : CallTrace :=
  runFrom env retries retries 0 1

/- ---------------------------------------------------------------------
The caller (UI layer, lines 117-128): truthiness test on the returned
value, table rendering, and total computation
`sum(item.get("calories", 0) for item in results)`.
--------------------------------------------------------------------- -/

/-- Python truthiness of a `json.loads` value as used by
`if results:` on line 119. -/
def truthy : Json → Bool
  | Json.null => false
  | Json.bool b => b
  | Json.num n => decide (n ≠ 0)
  | Json.str s => decide (s ≠ "")
  | Json.arr [] => false
  | Json.arr (_ :: _) => true
  | Json.obj [] => false
  | Json.obj (_ :: _) => true

/-- Python `item.get("calories", 0)` on line 127: a dict lookup with
default `0`; any non-dict item has no `.get` attribute and raises
`AttributeError`. -/
def itemGetCalories : Json → Except PyErr Json
  | Json.obj fs => Except.ok ((lookupField "calories" fs).getD (Json.num 0))
  | _ => Except.error PyErr.attributeError

/-- Python addition of an int accumulator and a `json.loads` value
inside `sum(...)`: ints add, bools coerce to 0/1, anything else raises
`TypeError`. -/
def pyAdd (acc : Int) : Json → Except PyErr Int
  | Json.num n => Except.ok (acc + n)
  | Json.bool b => Except.ok (acc + if b then 1 else 0)
  | _ => Except.error PyErr.typeError

/-- The fold performed by `sum(item.get("calories", 0) for item in
results)` over the items of a list. -/
def sumCalories (acc : Int) : List Json → Except PyErr Int
  | [] => Except.ok acc
  | item :: rest =>
    match itemGetCalories item with
    | Except.error e => Except.error e
    | Except.ok c =>
      match pyAdd acc c with
      | Except.error e => Except.error e
      | Except.ok acc2 => sumCalories acc2 rest

/-- Model of line 127 on an arbitrary returned value: iterating a list
visits its items; iterating a string visits its characters and a dict
its (string) keys, on which `.get` raises `AttributeError` (the empty
ones sum to 0 without visiting anything); other values are not iterable
(`TypeError`). -/
def totalCalories : Json → Except PyErr Int
  | Json.arr xs => sumCalories 0 xs
  | Json.str s => if s = "" then Except.ok 0 else Except.error PyErr.attributeError
  | Json.obj [] => Except.ok 0
  | Json.obj (_ :: _) => Except.error PyErr.attributeError
  | _ => Except.error PyErr.typeError

/-- One visible output of the result block, lines 120-128. -/
inductive UiElem where
  | successBanner : UiElem
  | subheaderBreakdown : UiElem
  | table (results : Json) : UiElem
  | totalHeader (total : Int) : UiElem

/-- Model of lines 119-128: when the returned value is absent
(`None`) or falsy, nothing is rendered; otherwise the success banner,
the subheader, the table of the results as returned, and the computed
total are rendered.  A `totalCalories` exception propagates
(`Except.error`). -/
def renderResults : Option Json → Except PyErr (List UiElem)
  | none => Except.ok []
  | some r =>
    if truthy r then
      match totalCalories r with
      | Except.error e => Except.error e
      | Except.ok t =>
        Except.ok [UiElem.successBanner, UiElem.subheaderBreakdown,
                   UiElem.table r, UiElem.totalHeader t]
    else Except.ok []

/- ---------------------------------------------------------------------
The encoder `image_to_base64` (lines 17-21).
--------------------------------------------------------------------- -/

/-- An in-memory PIL image: its decoded pixel content (as bytes) and the
format metadata left over from decoding.  `image.save(buffered,
format="JPEG")` depends only on the pixel content (the format argument
is fixed), not on the source-format metadata. -/
structure PILImage where
  pixels : List Nat
  sourceFormat : String

/-- Model of the external JPEG serializer (`PIL Image.save` with
`format="JPEG"`): an arbitrary but fixed deterministic byte encoding of
the pixel content, standing in for the external library.  The concrete
choice (SOI marker, the pixel bytes, EOI marker) is immaterial to the
properties proved about the encoder. -/
def jpegEncode (pixels : List Nat) : List Nat :=
  255 :: 216 :: (pixels.map (fun p => p % 256) ++ [255, 217])

/-- One character of the standard base64 alphabet. -/
def b64Char (n : Nat) : Char :=
  if n < 26 then Char.ofNat (65 + n)
  else if n < 52 then Char.ofNat (97 + (n - 26))
  else if n < 62 then Char.ofNat (48 + (n - 52))
  else if n = 62 then '+'
  else '/'

/-- Standard base64 of a byte list (model of `base64.b64encode` followed
by `.decode("utf-8")`). -/
def base64Encode : List Nat → String
  | [] => ""
  | [a] =>
    String.mk [b64Char (a % 256 / 4), b64Char (a % 256 % 4 * 16), '=', '=']
  | [a, b] =>
    String.mk [b64Char (a % 256 / 4), b64Char (a % 256 % 4 * 16 + b % 256 / 16),
               b64Char (b % 256 % 16 * 4), '=']
  | a :: b :: c :: rest =>
    String.mk [b64Char (a % 256 / 4), b64Char (a % 256 % 4 * 16 + b % 256 / 16),
               b64Char (b % 256 % 16 * 4 + c % 256 / 64), b64Char (c % 256 % 64)] ++
    base64Encode rest

/-- Model of `image_to_base64` (lines 17-21): serialize the image as
JPEG into a fresh in-memory buffer and base64-encode the bytes of
that buffer. -/
def image_to_base64 (image : PILImage) : String :=
  base64Encode (jpegEncode image.pixels)

/-- A file store, for making it an explicit part of the embedding that
the encoder performs no disk access. -/
structure Disk where
  files : List (String × List Nat)

/-- The encoder with its whole effect footprint made explicit: the
source writes only into a fresh `BytesIO` buffer, so the image object
and the file store come back unchanged alongside the base64 text. -/
def image_to_base64Run (image : PILImage) (disk : Disk) :
    String × PILImage × Disk :=
  (image_to_base64 image, image, disk)

/- ---------------------------------------------------------------------
Classifiers and auxiliary definitions used in the statements below.
--------------------------------------------------------------------- -/

/-- An attempt outcome the loop retries: an HTTP response whose status
makes `raise_for_status` raise (4xx/5xx) and is not 403. -/
def isRetryable : AttemptOutcome → Bool
  | AttemptOutcome.transportError => false
  | AttemptOutcome.response status _ =>
    decide (raisesForStatus status) && decide (status ≠ 403)

/-- The sleep durations of a run of `fuel` consecutive retried attempts
starting at backoff `delay`. -/
def backoffs : Nat → Nat → List Nat
  | 0, _ => []
  | fuel + 1, delay => delay :: backoffs fuel (delay * 2)

/-- The messages of a run of `fuel` consecutive retried attempts
starting at loop index `i` and backoff `delay`, ending in the
maximum-retries error. -/
def retryMsgs (retries : Nat) : Nat → Nat → Nat → List Msg
  | 0, _, _ => [Msg.errMsg maxRetriesMsg]
  | fuel + 1, i, delay =>
    Msg.warnMsg (retryWarning delay (i + 1) retries) :: retryMsgs retries fuel (i + 1) (delay * 2)

/-- Spec-side definition, following the words of the specification for a
schema-valid `FoodEstimate` entry: an object with a string `food_item`
field and a numeric `calories` field. -/
def isValidEntry : Json → Bool
  | Json.obj fs =>
    (match lookupField "food_item" fs with
     | some (Json.str _) => true
     | _ => false) &&
    (match lookupField "calories" fs with
     | some (Json.num _) => true
     | _ => false)
  | _ => false

/-- Spec-side definition, following the words of the specification for the
claimed invariant: the surfaced result is either absent or a fully
present sequence (a non-empty array all of whose entries are
schema-valid). -/
def specFullyValid : Option Json → Bool
  | none => true
  | some (Json.arr []) => false
  | some (Json.arr (x :: xs)) => (x :: xs).all isValidEntry
  | some _ => false

/-- An entry over which the total computation of line 127 is well-typed:
an object whose `calories` field, when present, is a number. -/
def entryWellTyped : Json → Bool
  | Json.obj fs =>
    match lookupField "calories" fs with
    | none => true
    | some (Json.num _) => true
    | some _ => false
  | _ => false

/-- The calorie contribution of one entry as the specification describes
it: the value of its `calories` field, or zero when the field is
missing. -/
def entryCal : Json → Int
  | Json.obj fs =>
    match lookupField "calories" fs with
    | some (Json.num n) => n
    | _ => 0
  | _ => 0

/- ---------------------------------------------------------------------
Concrete response bodies and environments used as instances.
--------------------------------------------------------------------- -/

/-- A 200-response body whose text payload is the one-entry Apple
estimate (the worked example of the specification). -/
def appleBody : String :=
  "\x7b\"candidates\":[\x7b\"content\":\x7b\"parts\":[\x7b\"text\":\"[\x7b\\\"food_item\\\":\\\"Apple\\\",\\\"calories\\\":95\x7d]\"\x7d]\x7d\x7d]\x7d"

/-- The parsed Apple result. -/
def appleResult : Json :=
  Json.arr [Json.obj [("food_item", Json.str "Apple"), ("calories", Json.num 95)]]

/-- A 200-response body with a syntactically valid envelope whose
`candidates` array is empty. -/
def emptyCandBody : String :=
  "\x7b\"candidates\":[]\x7d"

/-- A 200-response body whose text payload is an entry with no
`calories` field. -/
def missingCalBody : String :=
  "\x7b\"candidates\":[\x7b\"content\":\x7b\"parts\":[\x7b\"text\":\"[\x7b\\\"food_item\\\":\\\"A\\\"\x7d]\"\x7d]\x7d\x7d]\x7d"

/-- The parsed missing-calories result. -/
def missingCalResult : Json :=
  Json.arr [Json.obj [("food_item", Json.str "A")]]

/-- A 200-response body whose text payload is the empty JSON array. -/
def emptyListBody : String :=
  "\x7b\"candidates\":[\x7b\"content\":\x7b\"parts\":[\x7b\"text\":\"[]\"\x7d]\x7d\x7d]\x7d"

/-- A 200-response body whose text payload is an entry with an empty
food label and a negative calorie count. -/
def negCalBody : String :=
  "\x7b\"candidates\":[\x7b\"content\":\x7b\"parts\":[\x7b\"text\":\"[\x7b\\\"food_item\\\":\\\"\\\",\\\"calories\\\":-50\x7d]\"\x7d]\x7d\x7d]\x7d"

/-- The parsed negative-calories result. -/
def negCalResult : Json :=
  Json.arr [Json.obj [("food_item", Json.str ""), ("calories", Json.num (-50))]]

example : attemptBody appleBody = Except.ok appleResult := by rfl
example : attemptBody emptyCandBody = Except.error PyErr.indexError := by rfl
example : attemptBody missingCalBody = Except.ok missingCalResult := by rfl
example : attemptBody emptyListBody = Except.ok (Json.arr []) := by rfl
example : attemptBody negCalBody = Except.ok negCalResult := by rfl

/- ---------------------------------------------------------------------
Helper lemmas about the retry loop.
--------------------------------------------------------------------- -/

/-- Unfolding a run of the loop all of whose remaining attempts are
retryable HTTP failures: every attempt is consumed, each one warning and
sleeping with doubling delay, and the run ends in the maximum-retries
error with no result. -/
theorem runFrom_retryable (env : Nat → AttemptOutcome) (retries : Nat) :
    ∀ fuel i delay, (∀ j, j < fuel → isRetryable (env (i + j)) = true) →
    runFrom env retries fuel i delay =
      ⟨Except.ok none, retryMsgs retries fuel i delay, backoffs fuel delay, fuel⟩ := by
  intro fuel
  induction fuel with
  | zero => intro i delay _; rfl
  | succ f ih =>
    intro i delay h
    have h0 : isRetryable (env i) = true := by simpa using h 0 (Nat.succ_pos f)
    cases henv : env i with
    | transportError => rw [henv] at h0; simp [isRetryable] at h0
    | response status body =>
      rw [henv] at h0
      simp only [isRetryable, Bool.and_eq_true, decide_eq_true_eq] at h0
      obtain ⟨hrs, h403⟩ := h0
      have hrest := ih (i + 1) (delay * 2) (fun j hj => by
        have hh := h (j + 1) (Nat.succ_lt_succ hj)
        have : i + (j + 1) = i + 1 + j := by omega
        rwa [this] at hh)
      simp only [runFrom, henv, if_pos hrs, if_neg h403, hrest,
        retryMsgs, backoffs]

/-- One successful attempt (a non-raising status whose body parses and
whose payload parses): the loop returns the parsed payload at once, with
no message, no sleep and no further attempt. -/
theorem runFrom_success_step (env : Nat → AttemptOutcome)
    (retries fuel i delay status : Nat) (body : String) (v : Json)
    (henv : env i = AttemptOutcome.response status body)
    (hnr : ¬ raisesForStatus status)
    (hv : attemptBody body = Except.ok v) :
    runFrom env retries (fuel + 1) i delay = ⟨Except.ok (some v), [], [], 1⟩ := by
  simp only [runFrom, henv, if_neg hnr, hv]

/-- C1: when every one of the `max_attempts` (default 5) attempts fails
with a non-403 HTTP status that `raise_for_status` raises on, the client
performs exactly 5 attempts, sleeping between them with exponentially
doubling delays 1, 2, 4, 8, 16 (total 31), warns on each attempt, and
then returns no result after reporting the maximum-retries error. -/
theorem claim_retry_exhaustion (env : Nat → AttemptOutcome)
    (h : ∀ j, j < 5 → isRetryable (env j) = true) :
    call_gemini_api env =
      ⟨Except.ok none,
       [Msg.warnMsg (retryWarning 1 1 5), Msg.warnMsg (retryWarning 2 2 5),
        Msg.warnMsg (retryWarning 4 3 5), Msg.warnMsg (retryWarning 8 4 5),
        Msg.warnMsg (retryWarning 16 5 5), Msg.errMsg maxRetriesMsg],
       [1, 2, 4, 8, 16], 5⟩ ∧
    ([1, 2, 4, 8, 16] : List Nat).sum = 31 := by
  constructor
  · have hrun := runFrom_retryable env 5 5 0 1 (fun j hj => by
      simpa using h j hj)
    rw [call_gemini_api, hrun]
    rfl
  · rfl

/-- Closed instance of C1: every attempt answers HTTP 500. -/
theorem claim_retry_exhaustion_witness :
    call_gemini_api (fun _ => AttemptOutcome.response 500 "") =
      ⟨Except.ok none,
       [Msg.warnMsg (retryWarning 1 1 5), Msg.warnMsg (retryWarning 2 2 5),
        Msg.warnMsg (retryWarning 4 3 5), Msg.warnMsg (retryWarning 8 4 5),
        Msg.warnMsg (retryWarning 16 5 5), Msg.errMsg maxRetriesMsg],
       [1, 2, 4, 8, 16], 5⟩ :=
  (claim_retry_exhaustion (fun _ => AttemptOutcome.response 500 "")
    (fun _ _ => rfl)).1

/-- C2: an HTTP 403 on any attempt, at any point in the loop and with
any number of attempts remaining, makes the client report the permission
error and return no result at once: no sleep, no further attempt. -/
theorem claim_http403_fatal (env : Nat → AttemptOutcome)
    (retries fuel i delay : Nat) (body : String)
    (h : env i = AttemptOutcome.response 403 body) :
    runFrom env retries (fuel + 1) i delay =
      ⟨Except.ok none, [Msg.errMsg forbiddenMsg], [], 1⟩ := by
  have h1 : raisesForStatus 403 := ⟨by omega, by omega⟩
  simp [runFrom, h, h1]

/-- Closed instance of C2: HTTP 403 on the first attempt of a fresh
call. -/
theorem claim_http403_fatal_witness :
    runFrom (fun _ => AttemptOutcome.response 403 "") 5 5 0 1 =
      ⟨Except.ok none, [Msg.errMsg forbiddenMsg], [], 1⟩ :=
  claim_http403_fatal (fun _ => AttemptOutcome.response 403 "") 5 4 0 1 "" rfl

/-- C4: a response whose status is 2xx (so `raise_for_status` does not
raise) and whose envelope yields a text payload that parses as JSON
makes the client return the parsed value at once — no message, no sleep,
no further attempt. -/
theorem claim_success_immediate (env : Nat → AttemptOutcome)
    (retries fuel i delay status : Nat) (body : String) (v : Json)
    (henv : env i = AttemptOutcome.response status body)
    (h2xx : 200 ≤ status ∧ status < 300)
    (hv : attemptBody body = Except.ok v) :
    runFrom env retries (fuel + 1) i delay = ⟨Except.ok (some v), [], [], 1⟩ := by
  have hnr : ¬ raisesForStatus status := fun hr => by
    rcases hr with ⟨h4, _⟩; omega
  exact runFrom_success_step env retries fuel i delay status body v henv hnr hv

/-- Closed instance of C4: HTTP 200 whose payload is the one-entry Apple
estimate; the parsed result is returned and its computed total is 95. -/
theorem claim_success_immediate_witness :
    runFrom (fun _ => AttemptOutcome.response 200 appleBody) 5 5 0 1 =
      ⟨Except.ok (some appleResult), [], [], 1⟩ ∧
    totalCalories appleResult = Except.ok 95 :=
  ⟨claim_success_immediate (fun _ => AttemptOutcome.response 200 appleBody)
      5 4 0 1 200 appleBody appleResult rfl ⟨by omega, by omega⟩ rfl,
   rfl⟩

/-- A second HTTP attempt is ever performed only when the first
outcome in view was a retryable HTTP failure (a status that
`raise_for_status` raises on, other than 403): every other outcome ends
the loop after one attempt. -/
theorem second_attempt_retryable (env : Nat → AttemptOutcome)
    (retries fuel i delay : Nat)
    (hat : 2 ≤ (runFrom env retries (fuel + 1) i delay).attempts) :
    isRetryable (env i) = true := by
  cases henv : env i with
  | transportError => simp [runFrom, henv] at hat
  | response status body =>
    by_cases hrs : raisesForStatus status
    · by_cases h403 : status = 403
      · subst h403
        simp [runFrom, henv, hrs] at hat
      · simp [isRetryable, hrs, h403]
    · cases hab : attemptBody body with
      | ok v => simp [runFrom, henv, hrs, hab] at hat
      | error e2 =>
        by_cases hc : caughtFatal e2 = true
        · simp [runFrom, henv, hrs, hab, hc] at hat
        · simp [runFrom, henv, hrs, hab, hc] at hat

/-- C3: an attempt that fails with a transport failure, a malformed JSON
body, a missing expected field in the envelope (`KeyError`), or
malformed JSON in the text payload of a non-raising response makes the
client report the error and return no result at once, with zero
additional attempts; and only retryable (non-403 raising-status) HTTP
failures are ever followed by another attempt. -/
theorem claim_fatal_no_retry (env : Nat → AttemptOutcome)
    (retries fuel i delay status : Nat) (body : String) (e : PyErr)
    (h : (env i = AttemptOutcome.transportError ∧ e = PyErr.requestException) ∨
         (env i = AttemptOutcome.response status body ∧ ¬ raisesForStatus status ∧
          ((Json.parse body = none ∧ e = PyErr.jsonDecodeError) ∨
           (∃ envl, Json.parse body = some envl ∧
              extractText envl = Except.error PyErr.keyError ∧ e = PyErr.keyError) ∨
           (∃ envl t, Json.parse body = some envl ∧ extractText envl = Except.ok t ∧
              loads t = Except.error PyErr.jsonDecodeError ∧
              e = PyErr.jsonDecodeError)))) :
    (runFrom env retries (fuel + 1) i delay =
       ⟨Except.ok none, [Msg.errMsg (apiErrorMsg e)], [], 1⟩ ∧
     caughtFatal e = true) ∧
    (∀ (env2 : Nat → AttemptOutcome) (retries2 fuel2 i2 delay2 : Nat),
       2 ≤ (runFrom env2 retries2 (fuel2 + 1) i2 delay2).attempts →
       isRetryable (env2 i2) = true) := by
  refine ⟨?_, fun env2 retries2 fuel2 i2 delay2 hat =>
    second_attempt_retryable env2 retries2 fuel2 i2 delay2 hat⟩
  rcases h with ⟨henv, rfl⟩ | ⟨henv, hrs, hcase⟩
  · exact ⟨by simp [runFrom, henv], rfl⟩
  · rcases hcase with ⟨hp, rfl⟩ | ⟨envl, hp, hx, rfl⟩ | ⟨envl, t, hp, hx, hl, rfl⟩
    · have hab : attemptBody body = Except.error PyErr.jsonDecodeError := by
        simp [attemptBody, hp]
      exact ⟨by simp [runFrom, henv, hrs, hab, caughtFatal], rfl⟩
    · have hab : attemptBody body = Except.error PyErr.keyError := by
        simp [attemptBody, hp, hx]
      exact ⟨by simp [runFrom, henv, hrs, hab, caughtFatal], rfl⟩
    · have hab : attemptBody body = Except.error PyErr.jsonDecodeError := by
        simp [attemptBody, hp, hx, hl]
      exact ⟨by simp [runFrom, henv, hrs, hab, caughtFatal], rfl⟩

/-- Closed instance of C3: a transport failure on the first attempt of a
fresh call. -/
theorem claim_fatal_no_retry_witness :
    runFrom (fun _ => AttemptOutcome.transportError) 5 5 0 1 =
      ⟨Except.ok none, [Msg.errMsg (apiErrorMsg PyErr.requestException)], [], 1⟩ ∧
    caughtFatal PyErr.requestException = true :=
  (claim_fatal_no_retry (fun _ => AttemptOutcome.transportError)
    5 4 0 1 0 "" PyErr.requestException (Or.inl ⟨rfl, rfl⟩)).1

/-- A string subscription raises only `KeyError` or `TypeError`. -/
theorem jsonIndexStr_err (j : Json) (k : String) (e : PyErr)
    (h : jsonIndexStr j k = Except.error e) :
    e = PyErr.keyError ∨ e = PyErr.typeError := by
  cases j with
  | obj fs =>
    simp only [jsonIndexStr] at h
    cases hl : lookupField k fs with
    | some v => simp only [hl] at h; simp at h
    | none => simp only [hl] at h; simp at h; exact Or.inl h.symm
  | null => simp [jsonIndexStr] at h; exact Or.inr h.symm
  | bool b => simp [jsonIndexStr] at h; exact Or.inr h.symm
  | num n => simp [jsonIndexStr] at h; exact Or.inr h.symm
  | str s => simp [jsonIndexStr] at h; exact Or.inr h.symm
  | arr xs => simp [jsonIndexStr] at h; exact Or.inr h.symm

/-- An integer subscription raises only `KeyError`, `IndexError` or
`TypeError`. -/
theorem jsonIndexNat_err (j : Json) (i : Nat) (e : PyErr)
    (h : jsonIndexNat j i = Except.error e) :
    e = PyErr.keyError ∨ e = PyErr.indexError ∨ e = PyErr.typeError := by
  cases j with
  | arr xs =>
    simp only [jsonIndexNat] at h
    cases hl : xs.get? i with
    | some v => simp only [hl] at h; simp at h
    | none => simp only [hl] at h; simp at h; exact Or.inr (Or.inl h.symm)
  | str s =>
    simp only [jsonIndexNat] at h
    cases hl : s.data.get? i with
    | some c => simp only [hl] at h; simp at h
    | none => simp only [hl] at h; simp at h; exact Or.inr (Or.inl h.symm)
  | obj fs => simp [jsonIndexNat] at h; exact Or.inl h.symm
  | null => simp [jsonIndexNat] at h; exact Or.inr (Or.inr h.symm)
  | bool b => simp [jsonIndexNat] at h; exact Or.inr (Or.inr h.symm)
  | num n => simp [jsonIndexNat] at h; exact Or.inr (Or.inr h.symm)

/-- The payload parse raises only `JSONDecodeError` or `TypeError`. -/
theorem loads_err (t : Json) (e : PyErr) (h : loads t = Except.error e) :
    e = PyErr.jsonDecodeError ∨ e = PyErr.typeError := by
  cases t with
  | str s =>
    simp only [loads] at h
    cases hl : Json.parse s with
    | some v => simp only [hl] at h; simp at h
    | none => simp only [hl] at h; simp at h; exact Or.inl h.symm
  | null => simp [loads] at h; exact Or.inr h.symm
  | bool b => simp [loads] at h; exact Or.inr h.symm
  | num n => simp [loads] at h; exact Or.inr h.symm
  | arr xs => simp [loads] at h; exact Or.inr h.symm
  | obj fs => simp [loads] at h; exact Or.inr h.symm

/-- The envelope extraction of line 66 raises only `KeyError`,
`IndexError` or `TypeError`. -/
theorem extractText_err (j : Json) (e : PyErr)
    (h : extractText j = Except.error e) :
    e = PyErr.keyError ∨ e = PyErr.indexError ∨ e = PyErr.typeError := by
  cases h1 : jsonIndexStr j "candidates" with
  | error e1 =>
    simp only [extractText, h1] at h; simp at h; subst h
    rcases jsonIndexStr_err _ _ _ h1 with h2 | h2 <;> simp [h2]
  | ok a =>
    simp only [extractText, h1] at h
    cases h2 : jsonIndexNat a 0 with
    | error e2 =>
      simp only [h2] at h; simp at h; subst h
      exact jsonIndexNat_err _ _ _ h2
    | ok b =>
      simp only [h2] at h
      cases h3 : jsonIndexStr b "content" with
      | error e3 =>
        simp only [h3] at h; simp at h; subst h
        rcases jsonIndexStr_err _ _ _ h3 with h4 | h4 <;> simp [h4]
      | ok c =>
        simp only [h3] at h
        cases h4 : jsonIndexStr c "parts" with
        | error e4 =>
          simp only [h4] at h; simp at h; subst h
          rcases jsonIndexStr_err _ _ _ h4 with h5 | h5 <;> simp [h5]
        | ok d =>
          simp only [h4] at h
          cases h5 : jsonIndexNat d 0 with
          | error e5 =>
            simp only [h5] at h; simp at h; subst h
            exact jsonIndexNat_err _ _ _ h5
          | ok p =>
            simp only [h5] at h
            rcases jsonIndexStr_err _ _ _ h with h6 | h6 <;> simp [h6]

/-- The whole attempt body (lines 65-67) raises only `JSONDecodeError`,
`KeyError`, `IndexError` or `TypeError`; in particular never
`AttributeError`. -/
theorem attemptBody_err (body : String) (e : PyErr)
    (h : attemptBody body = Except.error e) :
    e = PyErr.jsonDecodeError ∨ e = PyErr.keyError ∨
    e = PyErr.indexError ∨ e = PyErr.typeError := by
  cases hp : Json.parse body with
  | none => simp only [attemptBody, hp] at h; simp at h; simp [h.symm]
  | some envl =>
    simp only [attemptBody, hp] at h
    cases hx : extractText envl with
    | error e2 =>
      simp only [hx] at h; simp at h; subst h
      rcases extractText_err _ _ hx with h2 | h2 | h2 <;> simp [h2]
    | ok t =>
      simp only [hx] at h
      rcases loads_err _ _ h with h2 | h2 <;> simp [h2]

/-- C5, counterexample: an HTTP 200 response whose envelope is the valid
JSON object with an empty `candidates` array makes
`result["candidates"][0]` raise `IndexError`, which no `except` clause
of `call_gemini_api` catches: the exception escapes with no user-visible
message, instead of degrading to a message and an empty result state as
the claim asserts for every execution. -/
theorem claim_no_crash_counterexample :
    (call_gemini_api (fun _ => AttemptOutcome.response 200 emptyCandBody)).retval =
      Except.error PyErr.indexError ∧
    (call_gemini_api (fun _ => AttemptOutcome.response 200 emptyCandBody)).msgs = [] :=
  ⟨rfl, rfl⟩

/-- C5, amended: every failure path of the inference client other than
an envelope-shape violation degrades to at least one user-visible
message and no result; the only exceptions that escape the client are
the uncaught envelope-shape errors `IndexError` and `TypeError` (raised
by the subscriptions of line 66 or by `json.loads` on a non-string
payload), which its `except` clauses do not cover. -/
theorem claim_no_crash_amended (env : Nat → AttemptOutcome)
    (retries fuel i delay : Nat) :
    ((runFrom env retries fuel i delay).retval = Except.ok none →
       (runFrom env retries fuel i delay).msgs ≠ []) ∧
    (∀ e, (runFrom env retries fuel i delay).retval = Except.error e →
       e = PyErr.indexError ∨ e = PyErr.typeError) := by
  induction fuel generalizing i delay with
  | zero =>
    refine ⟨fun _ => by simp [runFrom], fun e he => ?_⟩
    simp [runFrom] at he
  | succ f ih =>
    cases henv : env i with
    | transportError =>
      refine ⟨fun _ => by simp [runFrom, henv], fun e he => ?_⟩
      simp [runFrom, henv] at he
    | response status body =>
      by_cases hrs : raisesForStatus status
      · by_cases h403 : status = 403
        · subst h403
          refine ⟨fun _ => by simp [runFrom, henv, hrs], fun e he => ?_⟩
          simp [runFrom, henv, hrs] at he
        · have hrest := ih (i + 1) (delay * 2)
          constructor
          · intro _
            simp [runFrom, henv, hrs, h403]
          · intro e he
            simp only [runFrom, henv, if_pos hrs, if_neg h403] at he
            exact hrest.2 e he
      · cases hab : attemptBody body with
        | ok v =>
          refine ⟨fun hr => ?_, fun e he => ?_⟩
          · simp [runFrom, henv, hrs, hab] at hr
          · simp [runFrom, henv, hrs, hab] at he
        | error e2 =>
          by_cases hc : caughtFatal e2 = true
          · refine ⟨fun _ => by simp [runFrom, henv, hrs, hab, hc], fun e he => ?_⟩
            simp [runFrom, henv, hrs, hab, hc] at he
          · refine ⟨fun hr => ?_, fun e he => ?_⟩
            · simp [runFrom, henv, hrs, hab, hc] at hr
            · simp only [runFrom, henv, if_neg hrs, hab, if_neg hc] at he
              simp at he
              subst he
              rcases attemptBody_err _ _ hab with h2 | h2 | h2 | h2 <;>
                simp [h2, caughtFatal] at hc ⊢

/-- Closed instance of the amended C5: across a run in which every
attempt fails with HTTP 500, the client returns no result and has
emitted at least one message. -/
theorem claim_no_crash_amended_witness :
    (runFrom (fun _ => AttemptOutcome.response 500 "") 5 5 0 1).msgs ≠ [] :=
  (claim_no_crash_amended (fun _ => AttemptOutcome.response 500 "") 5 5 0 1).1 rfl

/-- C6, counterexample: a 200 response whose text payload is
`[{"food_item":"A"}]` (an entry with no `calories` field, hence not
schema-valid) is returned to the caller as-is: the surfaced result is
neither absent nor a fully schema-valid sequence, so partial results do
reach the caller. -/
theorem claim_full_or_failed_counterexample :
    (call_gemini_api (fun _ => AttemptOutcome.response 200 missingCalBody)).retval =
      Except.ok (some missingCalResult) ∧
    specFullyValid (some missingCalResult) = false :=
  ⟨rfl, rfl⟩

/-- C6, amended: the client returns whatever JSON the 2xx text payload
parsed to, without validating its shape, so partial or invalid entries
are surfaced unchanged; the caller gates rendering only on truthiness:
on no result, and on any falsy result, it renders no breakdown and
computes no total. -/
theorem claim_full_or_failed_amended :
    (∀ (env : Nat → AttemptOutcome) (retries fuel i delay status : Nat)
       (body : String) (v : Json),
       env i = AttemptOutcome.response status body →
       ¬ raisesForStatus status →
       attemptBody body = Except.ok v →
       (runFrom env retries (fuel + 1) i delay).retval = Except.ok (some v)) ∧
    renderResults none = Except.ok [] ∧
    (∀ r, truthy r = false → renderResults (some r) = Except.ok []) := by
  refine ⟨fun env retries fuel i delay status body v henv hnr hv => ?_, rfl,
    fun r hr => ?_⟩
  · rw [runFrom_success_step env retries fuel i delay status body v henv hnr hv]
  · simp [renderResults, hr]

/-- Closed instance of the amended C6: the absent result and a falsy
result (the parsed `[]`) both render nothing. -/
theorem claim_full_or_failed_amended_witness :
    renderResults (some (Json.arr [])) = Except.ok [] ∧
    renderResults none = Except.ok [] :=
  ⟨claim_full_or_failed_amended.2.2 (Json.arr []) rfl,
   claim_full_or_failed_amended.2.1⟩

/-- The running sum of line 127 over entries whose `calories` field,
when present, is numeric, equals the accumulator plus the
per-entry contributions as the specification defines them. -/
theorem sumCalories_wellTyped (xs : List Json) :
    ∀ acc : Int, xs.all entryWellTyped = true →
    sumCalories acc xs = Except.ok (acc + (xs.map entryCal).sum) := by
  induction xs with
  | nil => intro acc _; simp [sumCalories]
  | cons x rest ih =>
    intro acc h
    simp only [List.all_cons, Bool.and_eq_true] at h
    obtain ⟨hx, hrest⟩ := h
    cases x with
    | obj fs =>
      simp only [entryWellTyped] at hx
      cases hl : lookupField "calories" fs with
      | none =>
        have hget : itemGetCalories (Json.obj fs) = Except.ok (Json.num 0) := by
          simp [itemGetCalories, hl]
        simp only [sumCalories, hget, pyAdd, ih (acc + 0) hrest,
          List.map_cons, List.sum_cons, entryCal, hl]
        congr 1
        omega
      | some c =>
        rw [hl] at hx
        cases c with
        | num n =>
          have hget : itemGetCalories (Json.obj fs) = Except.ok (Json.num n) := by
            simp [itemGetCalories, hl]
          simp only [sumCalories, hget, pyAdd, ih (acc + n) hrest,
            List.map_cons, List.sum_cons, entryCal, hl]
          congr 1
          omega
        | null => simp at hx
        | bool b => simp at hx
        | str s => simp at hx
        | arr ys => simp at hx
        | obj gs => simp at hx
    | null => simp [entryWellTyped] at hx
    | bool b => simp [entryWellTyped] at hx
    | num n => simp [entryWellTyped] at hx
    | str s => simp [entryWellTyped] at hx
    | arr ys => simp [entryWellTyped] at hx

/-- C7: for a result sequence of object entries whose `calories` field,
when present, is numeric, the computed total of line 127 equals the sum
of the `calories` values over all entries, an entry without the field
contributing zero. -/
theorem claim_total_sum (xs : List Json) (h : xs.all entryWellTyped = true) :
    totalCalories (Json.arr xs) = Except.ok ((xs.map entryCal).sum) := by
  have hs := sumCalories_wellTyped xs 0 h
  simpa [totalCalories] using hs

/-- Closed instance of C7: `[{food_item:"A",calories:10},{food_item:"B"}]`
totals 10, the missing field contributing zero. -/
theorem claim_total_sum_witness :
    totalCalories (Json.arr
      [Json.obj [("food_item", Json.str "A"), ("calories", Json.num 10)],
       Json.obj [("food_item", Json.str "B")]]) = Except.ok 10 :=
  claim_total_sum
    [Json.obj [("food_item", Json.str "A"), ("calories", Json.num 10)],
     Json.obj [("food_item", Json.str "B")]] rfl

/-- C8: the encoder is a deterministic function of the pixel content
(two images with identical pixels, whatever their other metadata, and
whatever the state of the file store, encode to identical base64 text),
and it returns its input image and the file store unchanged: no
mutation, no disk I/O. -/
theorem claim_encoder_deterministic (img1 img2 : PILImage) (d1 d2 : Disk)
    (h : img1.pixels = img2.pixels) :
    (image_to_base64Run img1 d1).1 = (image_to_base64Run img2 d2).1 ∧
    (image_to_base64Run img1 d1).2.1 = img1 ∧
    (image_to_base64Run img1 d1).2.2 = d1 := by
  refine ⟨?_, rfl, rfl⟩
  simp [image_to_base64Run, image_to_base64, h]

/-- Closed instance of C8: the same pixels behind different source
formats and different file stores give the same base64 text. -/
theorem claim_encoder_deterministic_witness :
    (image_to_base64Run ⟨[10, 20, 30], "PNG"⟩ ⟨[]⟩).1 =
      (image_to_base64Run ⟨[10, 20, 30], "JPEG"⟩ ⟨[("f", [1])]⟩).1 :=
  (claim_encoder_deterministic ⟨[10, 20, 30], "PNG"⟩ ⟨[10, 20, 30], "JPEG"⟩
    ⟨[]⟩ ⟨[("f", [1])]⟩ rfl).1

/-- C9: when an attempt yields a non-raising status whose text payload
parses to the empty JSON array, the client returns that empty sequence
with no message (so no warning and no error is emitted for the
outcome), and the caller, finding the empty list falsy, renders nothing:
no success banner, no table, no total. -/
theorem claim_empty_result_silent (env : Nat → AttemptOutcome)
    (retries fuel i delay status : Nat) (body : String)
    (henv : env i = AttemptOutcome.response status body)
    (h2xx : 200 ≤ status ∧ status < 300)
    (hv : attemptBody body = Except.ok (Json.arr [])) :
    runFrom env retries (fuel + 1) i delay =
      ⟨Except.ok (some (Json.arr [])), [], [], 1⟩ ∧
    renderResults (some (Json.arr [])) = Except.ok [] := by
  refine ⟨?_, rfl⟩
  have hnr : ¬ raisesForStatus status := fun hr => by
    rcases hr with ⟨h4, _⟩; omega
  exact runFrom_success_step env retries fuel i delay status body
    (Json.arr []) henv hnr hv

/-- Closed instance of C9: HTTP 200 whose text payload is `"[]"`. -/
theorem claim_empty_result_silent_witness :
    runFrom (fun _ => AttemptOutcome.response 200 emptyListBody) 5 5 0 1 =
      ⟨Except.ok (some (Json.arr [])), [], [], 1⟩ ∧
    renderResults (some (Json.arr [])) = Except.ok [] :=
  claim_empty_result_silent (fun _ => AttemptOutcome.response 200 emptyListBody)
    5 4 0 1 200 emptyListBody rfl ⟨by omega, by omega⟩ rfl

/-- C10: neither the client nor the caller validates the parsed entries:
a successful response whose single entry has an empty `food_item` and
calories -50 is returned verbatim, rendered in the table unchanged, and
its computed total is the negative number -50. -/
theorem claim_no_validation :
    (call_gemini_api (fun _ => AttemptOutcome.response 200 negCalBody)).retval =
      Except.ok (some negCalResult) ∧
    renderResults (some negCalResult) =
      Except.ok [UiElem.successBanner, UiElem.subheaderBreakdown,
                 UiElem.table negCalResult, UiElem.totalHeader (-50)] ∧
    ((-50 : Int) < 0) ∧
    lookupField "food_item"
      [("food_item", Json.str ""), ("calories", Json.num (-50))] =
      some (Json.str "") :=
  ⟨rfl, rfl, by omega, rfl⟩
